import Mathlib

/-!
Verification of the Gust chart-builder library (shallow embedding).

The embedding follows the Rust source:
* src/backend/elements/general.rs    — Orientation, KeyVal, QualKeyVal, JSONDict
* src/backend/elements/area_chart.rs — AreaChartScale and its serialization
* src/backend/bar_chart.rs           — the BarChart aggregate, its mutators and
                                       its top-level serialization

Serde serialization is modelled by a JSON value type: serialize_struct emits
its fields in call order and is allowed to emit the same field name twice, so
objects are association lists that may contain duplicate keys, in emission
order.  Rust HashMaps are modelled as association lists with insert-or-replace
semantics (a deterministic stand-in for the unspecified iteration order;
claims about dictionaries are stated up to field multiset where order would
matter).  Vec indexing, which panics when out of bounds, is modelled by
Option-returning operations.
-/

namespace Gust

/-- JSON values as produced by the serialization layer.  Objects keep their
fields in emission order and may, in principle, repeat a field name — exactly
what serde's serialize_struct allows — so that duplicate-field emission is
observable in the model. -/
inductive Json where
  | str  : String → Json
  | int  : Int → Json
  | bool : Bool → Json
  | arr  : List Json → Json
  | obj  : List (String × Json) → Json

/-- Field names of an object, in emission order (with multiplicity). -/
def Json.fieldNames : Json → List String
  | .obj fs => fs.map Prod.fst
  | _ => []

/-- Lookup of the first field with the given name. -/
def Json.field : Json → String → Option Json
  | .obj fs, k => (fs.find? (fun p => p.1 == k)).map Prod.snd
  | _, _ => none

/-- Length of a JSON array (0 on non-arrays). -/
def Json.arrLen : Json → Nat
  | .arr l => l.length
  | _ => 0

/-- Insert-or-replace on an association list: the model of HashMap::insert.
If the key is present its value is replaced in place, otherwise the pair is
appended.  Iteration order of the model is thus insertion order. -/
def hmInsert {α : Type} (m : List (String × α)) (k : String) (v : α) : List (String × α) :=
  if m.any (fun p => p.1 == k) then m.map (fun p => if p.1 == k then (k, v) else p)
  else m ++ [(k, v)]

/-- JSONDict from general.rs: one HashMap of string values and one of i32
values, both keyed by static strings. -/
structure JSONDict where
  str_vals : List (String × String)
  i32_vals : List (String × Int)

/-- JSONDict::create — two string-valued entries. -/
def JSONDict.create (x_key : String) (x_val : String) (y_key : String) (y_val : String) :
    JSONDict :=
  { str_vals := hmInsert (hmInsert [] x_key x_val) y_key y_val
    i32_vals := [] }

/-- JSONDict::band_create — one string-valued and one i32-valued entry. -/
def JSONDict.band_create (x_key : String) (x_val : String) (y_key : String) (y_val : Int) :
    JSONDict :=
  { str_vals := hmInsert [] x_key x_val
    i32_vals := hmInsert [] y_key y_val }

/-- JSONDict::tri_create — one string-valued and two i32-valued entries. -/
def JSONDict.tri_create (x_key : String) (x_val : String) (y_key : String) (y_val : Int)
    (z_key : String) (z_val : Int) : JSONDict :=
  { str_vals := hmInsert [] x_key x_val
    i32_vals := hmInsert (hmInsert [] y_key y_val) z_key z_val }

/-- Serialize for JSONDict: emit every string entry, then every i32 entry,
one serialize_field call per stored entry. -/
def JSONDict.serialize (d : JSONDict) : Json :=
  .obj (d.str_vals.map (fun p => (p.1, Json.str p.2)) ++
        d.i32_vals.map (fun p => (p.1, Json.int p.2)))

/-- Orientation from general.rs; serde renames all variants to lowercase. -/
inductive Orientation where
  | Top
  | Left
  | Bottom
  | Right

/-- Derived Serialize for Orientation with the lowercase rename. -/
def Orientation.serialize : Orientation → Json
  | .Top => .str "top"
  | .Left => .str "left"
  | .Bottom => .str "bottom"
  | .Right => .str "right"

/-- AreaChartScale from area_chart.rs (field scale_type is the grammar's
"type" attribute, renamed at serialization time). -/
structure AreaChartScale where
  name : String
  scale_type : String
  range : String
  zero : Bool
  domain : JSONDict

/-- AreaChartScale::default_x. -/
def AreaChartScale.default_x : AreaChartScale :=
  { name := "xscale"
    scale_type := "linear"
    zero := false
    range := "width"
    domain := JSONDict.create "data" "table" "field" "u" }

/-- AreaChartScale::default_y. -/
def AreaChartScale.default_y : AreaChartScale :=
  { name := "yscale"
    scale_type := "linear"
    zero := true
    range := "height"
    domain := JSONDict.create "data" "table" "field" "v" }

/-- Serialize for AreaChartScale: fields name, type, range, zero, domain in
that call order. -/
def AreaChartScale.serialize (s : AreaChartScale) : Json :=
  .obj [("name", .str s.name),
        ("type", .str s.scale_type),
        ("range", .str s.range),
        ("zero", .bool s.zero),
        ("domain", s.domain.serialize)]

/-- Modelled from the spec: BarChartValue lives in the bar_chart elements
module, which is not under src/.  Per the data model, a DataEntry is a
category label (string) plus its numeric value (integer); BarChart::add_data
constructs one from exactly these two arguments. -/
structure BarChartValue where
  category : String
  amount : Int


/-- Modelled from the spec: BarChartData (the data series type) is not under
src/.  A DataSeries is a named, insertion-order-preserving collection of
entries, serialized as a record with a name string and a values array. -/
structure BarChartData where
  name : String
  values : List BarChartValue


/-- Modelled from the spec: BarChartData::new yields the single default
series, named "table" with an empty values array. -/
def BarChartData.new : BarChartData :=
  { name := "table", values := [] }

/-- Modelled from the spec: BarChartData::clear (called by
BarChart::clear_data) empties the entry sequence and preserves the series
name/identity. -/
def BarChartData.clear (d : BarChartData) : BarChartData :=
  { d with values := [] }

/-- Derived Serialize for a data entry. -/
def BarChartValue.serialize (v : BarChartValue) : Json :=
  .obj [("category", .str v.category), ("amount", .int v.amount)]

/-- Derived Serialize for a data series: the spec's required shape is a
record with a name string and a values array. -/
def BarChartData.serialize (d : BarChartData) : Json :=
  .obj [("name", .str d.name), ("values", .arr (d.values.map BarChartValue.serialize))]

/-- Modelled from the spec: BarChartScale is not under src/.  A scale carries
a name, a type, a visual range, a zero flag and a domain descriptor
referencing a data-series field. -/
structure BarChartScale where
  name : String
  scale_type : String
  range : String
  zero : Bool
  domain : JSONDict


/-- Modelled from the spec: BarChartScale::create_xscale returns the minimal
grammar-valid x scale — range "width", zero false, domain over the default
series' category field (the scale-type literal is not pinned by the spec). -/
def BarChartScale.create_xscale : BarChartScale :=
  { name := "xscale"
    scale_type := "band"
    range := "width"
    zero := false
    domain := JSONDict.create "data" "table" "field" "category" }

/-- Modelled from the spec: BarChartScale::create_yscale returns the minimal
grammar-valid y scale — range "height", zero true, domain over the default
series' amount field. -/
def BarChartScale.create_yscale : BarChartScale :=
  { name := "yscale"
    scale_type := "linear"
    range := "height"
    zero := true
    domain := JSONDict.create "data" "table" "field" "amount" }

/-- Serialize for a bar-chart scale, following the same external field
vocabulary the area-chart scale uses. -/
def BarChartScale.serialize (s : BarChartScale) : Json :=
  .obj [("name", .str s.name),
        ("type", .str s.scale_type),
        ("range", .str s.range),
        ("zero", .bool s.zero),
        ("domain", s.domain.serialize)]

/-- Modelled from the spec: BarChartAxis is not under src/.  An axis is an
orientation plus the name of the scale it visualizes. -/
structure BarChartAxis where
  orient : Orientation
  scale : String

/-- Modelled from the spec: BarChartAxis::create_xaxis — orientation bottom
for the x axis. -/
def BarChartAxis.create_xaxis : BarChartAxis :=
  { orient := .Bottom, scale := "xscale" }

/-- Modelled from the spec: BarChartAxis::create_yaxis — orientation left for
the y axis. -/
def BarChartAxis.create_yaxis : BarChartAxis :=
  { orient := .Left, scale := "yscale" }

/-- Serialize for a bar-chart axis: the external names orient and scale. -/
def BarChartAxis.serialize (a : BarChartAxis) : Json :=
  .obj [("orient", a.orient.serialize), ("scale", .str a.scale)]

/-- Modelled from the spec: BarChartMark is not under src/.  A mark is the
visual primitive plus its encoding block; no claim depends on its contents,
so only the primitive's type tag is carried. -/
structure BarChartMark where
  mark_type : String

/-- Modelled from the spec: BarChartMark::create_mark returns the single
default bar mark. -/
def BarChartMark.create_mark : BarChartMark :=
  { mark_type := "rect" }

/-- Serialize for a bar-chart mark. -/
def BarChartMark.serialize (m : BarChartMark) : Json :=
  .obj [("type", .str m.mark_type)]

/-- The BarChart aggregate from bar_chart.rs. -/
structure BarChart where
  identifier : String
  description : String
  width : Int
  height : Int
  padding : Int
  data : List BarChartData
  scales : List BarChartScale
  axes : List BarChartAxis
  marks : List BarChartMark

/-- BarChart::new — the fully populated default chart. -/
def BarChart.new : BarChart :=
  { identifier := "barchart"
    description := "A barchart"
    width := 500
    height := 300
    padding := 5
    data := [BarChartData.new]
    scales := [BarChartScale.create_xscale, BarChartScale.create_yscale]
    axes := [BarChartAxis.create_xaxis, BarChartAxis.create_yaxis]
    marks := [BarChartMark.create_mark] }

/-- BarChart::add_data pushes one entry onto data[0].values.  The Vec
indexing panics when the data vector is empty, so the operation is modelled
as Option-valued: none is the panic. -/
def BarChart.add_data (c : BarChart) (category : String) (amount : Int) :
    Option BarChart :=
  match c.data with
  | [] => none
  | d :: rest =>
      some { c with data := { d with values := d.values ++ [⟨category, amount⟩] } :: rest }

/-- BarChart::set_description replaces the description string. -/
def BarChart.set_description (c : BarChart) (description : String) : BarChart :=
  { c with description := description }

/-- BarChart::set_dimension takes a (height, width) tuple: height is the
first component, width the second. -/
def BarChart.set_dimension (c : BarChart) (t : Int × Int) : BarChart :=
  { c with height := t.1, width := t.2 }

/-- BarChart::set_padding replaces the padding scalar. -/
def BarChart.set_padding (c : BarChart) (pad : Int) : BarChart :=
  { c with padding := pad }

/-- BarChart::clear_data calls data[0].clear(); the indexing is modelled as
Option-valued like add_data. -/
def BarChart.clear_data (c : BarChart) : Option BarChart :=
  match c.data with
  | [] => none
  | d :: rest => some { c with data := d.clear :: rest }

/-- Graphable::get_description for BarChart. -/
def BarChart.get_description (c : BarChart) : String :=
  c.description

/-- Graphable::get_identifier for BarChart. -/
def BarChart.get_identifier (c : BarChart) : String :=
  c.identifier

/-- Serialize for BarChart: the fixed schema URL constant followed by width,
height, padding and the four element vectors, each vector serialized as the
array of its elements' serializations, in exactly the serialize_field call
order of the source. -/
def BarChart.serialize (c : BarChart) : Json :=
  .obj [("$schema", .str "https://vega.github.io/schema/vega/v3.0.json"),
        ("width", .int c.width),
        ("height", .int c.height),
        ("padding", .int c.padding),
        ("data", .arr (c.data.map BarChartData.serialize)),
        ("scales", .arr (c.scales.map BarChartScale.serialize)),
        ("axes", .arr (c.axes.map BarChartAxis.serialize)),
        ("marks", .arr (c.marks.map BarChartMark.serialize))]

/-- One call of the public mutator API, for reasoning about reachability. -/
inductive ChartOp where
  | add_data (category : String) (amount : Int)
  | set_description (s : String)
  | set_dimension (t : Int × Int)
  | set_padding (p : Int)
  | clear_data

/-- Apply one mutator; none marks a panic of the underlying operation. -/
def ChartOp.apply (c : BarChart) : ChartOp → Option BarChart
  | .add_data category amount => c.add_data category amount
  | .set_description s => some (c.set_description s)
  | .set_dimension t => some (c.set_dimension t)
  | .set_padding p => some (c.set_padding p)
  | .clear_data => c.clear_data

/-- Run a sequence of mutator calls left to right, stopping at a panic. -/
def runOps (c : BarChart) : List ChartOp → Option BarChart
  | [] => some c
  | op :: ops => (ChartOp.apply c op).bind (fun c2 => runOps c2 ops)

/-- Folding a list of add_data calls, left to right. -/
def addAll (c : BarChart) : List (String × Int) → Option BarChart
  | [] => some c
  | p :: ps => (c.add_data p.1 p.2).bind (fun c2 => addAll c2 ps)

/-- Shared helper: the top-level serialization always emits exactly these
eight field names, in this order, whatever the chart state. -/
theorem BarChart.serialize_fieldNames (c : BarChart) :
    (c.serialize).fieldNames =
      ["$schema", "width", "height", "padding", "data", "scales", "axes", "marks"] := rfl

/-- Shared helper: one mutator call on a chart whose data vector has exactly
one series succeeds and leaves the data vector at exactly one series. -/
theorem ChartOp.apply_total (op : ChartOp) (c : BarChart) (h : c.data.length = 1) :
    ∃ c2, ChartOp.apply c op = some c2 ∧ c2.data.length = 1 := by
  obtain ⟨d, hd⟩ := List.length_eq_one.mp h
  cases op <;>
    simp [ChartOp.apply, BarChart.add_data, BarChart.clear_data,
          BarChart.set_description, BarChart.set_dimension, BarChart.set_padding, hd]

/-- Shared helper: any sequence of mutator calls started from a chart whose
data vector has exactly one series runs to completion with that invariant. -/
theorem runOps_total (ops : List ChartOp) :
    ∀ c : BarChart, c.data.length = 1 →
      ∃ c2, runOps c ops = some c2 ∧ c2.data.length = 1 := by
  induction ops with
  | nil => exact fun c h => ⟨c, rfl, h⟩
  | cons op ops ih =>
    intro c h
    obtain ⟨c2, hc2, hlen⟩ := ChartOp.apply_total op c h
    obtain ⟨c3, hc3, hlen3⟩ := ih c2 hlen
    exact ⟨c3, by simp [runOps, hc2, hc3], hlen3⟩

/-- Shared helper: folding add_data over a chart whose data vector starts
with series d appends the corresponding entries, in order, to d.values and
touches nothing else. -/
theorem addAll_spec (l : List (String × Int)) :
    ∀ (c : BarChart) (d : BarChartData) (rest : List BarChartData), c.data = d :: rest →
      addAll c l = some { c with data :=
        { d with values := d.values ++ l.map (fun p => ⟨p.1, p.2⟩) } :: rest } := by
  induction l with
  | nil =>
    intro c d rest h
    simp only [addAll, List.map_nil, List.append_nil, Option.some.injEq]
    rw [show ({ d with values := d.values } : BarChartData) = d from rfl, ← h]
  | cons p ps ih =>
    intro c d rest h
    simp only [addAll, BarChart.add_data, h, Option.some_bind]
    rw [ih { c with data := { d with values := d.values ++ [⟨p.1, p.2⟩] } :: rest }
          { d with values := d.values ++ [⟨p.1, p.2⟩] } rest rfl]
    simp

/-- C1: serialize() emits the document fields in the fixed order $schema,
width, height, padding, data, scales, axes, marks, with $schema the fixed
URL constant, for every chart state.  (Read-onlyness holds by construction:
serialize is a pure function of the state in this embedding, mirroring the
&self receiver in the source.) -/
theorem serialize_fixed_field_order (c : BarChart) :
    (c.serialize).fieldNames =
      ["$schema", "width", "height", "padding", "data", "scales", "axes", "marks"] ∧
    (c.serialize).field "$schema" =
      some (.str "https://vega.github.io/schema/vega/v3.0.json") :=
  ⟨BarChart.serialize_fieldNames c, rfl⟩

/-- C2: a sequence of n add_data calls on a fresh chart yields exactly the n
corresponding entries, in call order, in the (single) first data series; no
uniqueness of categories is required, and nothing else of the chart changes. -/
theorem add_data_append_semantics (l : List (String × Int)) :
    addAll BarChart.new l =
      some { BarChart.new with
             data := [{ name := "table", values := l.map (fun p => ⟨p.1, p.2⟩) }] } := by
  have h := addAll_spec l BarChart.new BarChartData.new [] rfl
  simpa [BarChartData.new] using h

/-- C4: set_dimension (h, w) sets height to the first and width to the second
component, end to end through serialization, and changes no other field of
the chart. -/
theorem set_dimension_height_first (c : BarChart) (h w : Int) :
    ((c.set_dimension (h, w)).serialize).field "height" = some (.int h) ∧
    ((c.set_dimension (h, w)).serialize).field "width" = some (.int w) ∧
    (c.set_dimension (h, w)).height = h ∧
    (c.set_dimension (h, w)).width = w ∧
    (c.set_dimension (h, w)).data = c.data ∧
    (c.set_dimension (h, w)).scales = c.scales ∧
    (c.set_dimension (h, w)).axes = c.axes ∧
    (c.set_dimension (h, w)).marks = c.marks ∧
    (c.set_dimension (h, w)).padding = c.padding ∧
    (c.set_dimension (h, w)).description = c.description ∧
    (c.set_dimension (h, w)).identifier = c.identifier :=
  ⟨rfl, rfl, rfl, rfl, rfl, rfl, rfl, rfl, rfl, rfl, rfl⟩

/-- C5: every mutator is total on every state reachable from BarChart::new:
any sequence of well-typed mutator calls runs to completion (no panic, i.e.
never none), and the data-vector indexing inside add_data and clear_data is
always in bounds because the data vector keeps exactly one series. -/
theorem mutators_total_from_new (ops : List ChartOp) :
    ∃ c, runOps BarChart.new ops = some c ∧ c.data.length = 1 :=
  runOps_total ops BarChart.new rfl

/-- C7: the area-chart scale default factories return exactly the grammar's
fixed constants, and a scale serializes with the external field names name,
type, range, zero, domain in that order. -/
theorem area_scale_default_constants :
    AreaChartScale.default_x.serialize =
      .obj [("name", .str "xscale"), ("type", .str "linear"), ("range", .str "width"),
            ("zero", .bool false),
            ("domain", .obj [("data", .str "table"), ("field", .str "u")])] ∧
    AreaChartScale.default_y.serialize =
      .obj [("name", .str "yscale"), ("type", .str "linear"), ("range", .str "height"),
            ("zero", .bool true),
            ("domain", .obj [("data", .str "table"), ("field", .str "v")])] :=
  ⟨rfl, rfl⟩

/-- C9: a freshly constructed chart serializes to the fixed default document:
the fixed $schema URL, exactly one data series named "table" with an empty
values array, exactly two scales, exactly two axes and exactly one mark. -/
theorem new_serializes_golden :
    (BarChart.new.serialize).field "$schema" =
      some (.str "https://vega.github.io/schema/vega/v3.0.json") ∧
    (BarChart.new.serialize).field "data" =
      some (.arr [.obj [("name", .str "table"), ("values", .arr [])]]) ∧
    ((BarChart.new.serialize).field "scales").map Json.arrLen = some 2 ∧
    ((BarChart.new.serialize).field "axes").map Json.arrLen = some 2 ∧
    ((BarChart.new.serialize).field "marks").map Json.arrLen = some 1 :=
  ⟨rfl, rfl, rfl, rfl, rfl⟩

/-- C10: set_description is invisible to serialize(): the emitted document is
identical with or without the call, the description and identifier fields
never appear in the output, and the description is observable only through
the Graphable accessors. -/
theorem description_never_serialized (c : BarChart) (s : String) :
    (c.set_description s).serialize = c.serialize ∧
    (c.set_description s).get_description = s ∧
    (c.set_description s).get_identifier = c.get_identifier ∧
    "description" ∉ (c.serialize).fieldNames ∧
    "identifier" ∉ (c.serialize).fieldNames := by
  refine ⟨rfl, rfl, rfl, ?_, ?_⟩ <;>
    rw [BarChart.serialize_fieldNames c] <;> decide

/-- C3 counterexample: band_create accepts the same key for its string-valued
and its i32-valued entry; the two backing maps then both hold that key, and
serialization emits the field name twice, breaking the unique-key claim. -/
theorem band_create_duplicate_field :
    ((JSONDict.band_create "a" "x" "a" 1).serialize).fieldNames = ["a", "a"] ∧
    ¬ ((JSONDict.band_create "a" "x" "a" 1).serialize).fieldNames.Nodup :=
  ⟨rfl, by decide⟩

/-- C3 (amended): serialization of a factory-built JSONDict emits one field
per stored entry with no duplicated field name, provided no key is passed
both as a string-valued and as an i32-valued key; create needs no proviso
because both of its entries live in the string map, where a repeated insert
overwrites. -/
theorem dict_factories_unique_fields (a b c sa sb : String) (ib ic : Int) :
    ((JSONDict.create a sa b sb).serialize).fieldNames.Nodup ∧
    (a ≠ b → ((JSONDict.band_create a sa b ib).serialize).fieldNames.Nodup) ∧
    (a ≠ b → a ≠ c →
      ((JSONDict.tri_create a sa b ib c ic).serialize).fieldNames.Nodup) := by
  refine ⟨?_, ?_, ?_⟩
  · by_cases h : a = b <;>
      simp [JSONDict.create, JSONDict.serialize, Json.fieldNames, hmInsert,
            Function.comp, h]
  · intro h
    simp [JSONDict.band_create, JSONDict.serialize, Json.fieldNames, hmInsert,
          Function.comp, h]
  · intro hab hac
    by_cases h : b = c <;>
      simp [JSONDict.tri_create, JSONDict.serialize, Json.fieldNames, hmInsert,
            Function.comp, Prod.mk.injEq, h, hab, hac]

/-- C3 witness: the amended statement at concrete keys x, y, z. -/
theorem dict_factories_unique_fields_witness :
    ("x" : String) ≠ "y" ∧ ("x" : String) ≠ "z" ∧
    ((JSONDict.create "x" "1" "y" "2").serialize).fieldNames.Nodup ∧
    ((JSONDict.band_create "x" "1" "y" 3).serialize).fieldNames.Nodup ∧
    ((JSONDict.tri_create "x" "1" "y" 3 "z" 4).serialize).fieldNames.Nodup := by
  have h := dict_factories_unique_fields "x" "y" "z" "1" "2" 3 4
  exact ⟨by decide, by decide, h.1, h.2.1 (by decide), h.2.2 (by decide) (by decide)⟩

/-- C6: with distinct keys a and b, create(a, va, b, vb) serializes to a JSON
object holding exactly the two fields a:va and b:vb and nothing else. -/
theorem create_exactly_two_fields (a va b vb : String) (h : a ≠ b) :
    (JSONDict.create a va b vb).serialize = .obj [(a, .str va), (b, .str vb)] := by
  simp [JSONDict.create, JSONDict.serialize, hmInsert, h]

/-- C6 witness: the spec's own example create("a","1","b","2"). -/
theorem create_exactly_two_fields_witness :
    (JSONDict.create "a" "1" "b" "2").serialize =
      .obj [("a", .str "1"), ("b", .str "2")] :=
  create_exactly_two_fields "a" "1" "b" "2" (by decide)

/-- C8: on every state reachable from BarChart::new, clear_data succeeds,
empties the values of the single data series while keeping its name, changes
nothing else of the chart, and serialization then emits that series with an
empty values array. -/
theorem clear_data_reachable (ops : List ChartOp) (c : BarChart)
    (h : runOps BarChart.new ops = some c) :
    ∃ d c2, c.data = [d] ∧ c.clear_data = some c2 ∧
      c2 = { c with data := [{ d with values := [] }] } ∧
      (c2.serialize).field "data" =
        some (.arr [.obj [("name", .str d.name), ("values", .arr [])]]) := by
  obtain ⟨c2, hc2, hlen⟩ := runOps_total ops BarChart.new rfl
  rw [h] at hc2
  injection hc2 with hc2
  subst hc2
  obtain ⟨d, hd⟩ := List.length_eq_one.mp hlen
  refine ⟨d, { c with data := [{ d with values := [] }] }, hd, ?_, rfl, rfl⟩
  simp [BarChart.clear_data, hd, BarChartData.clear]

/-- C8 witness: the reachable state after zero mutations, BarChart::new. -/
theorem clear_data_reachable_witness :
    ∃ d c2, BarChart.new.data = [d] ∧ BarChart.new.clear_data = some c2 ∧
      c2 = { BarChart.new with data := [{ d with values := [] }] } ∧
      (c2.serialize).field "data" =
        some (.arr [.obj [("name", .str d.name), ("values", .arr [])]]) :=
  clear_data_reachable [] BarChart.new rfl

end Gust
